import Mathlib

/-!
Verification of the smart-life-api identity and tenant-context subsystem.

Shallow embedding of:
- the JWT issue/verify pair used at login (src/unnamed/part_004) and in the
  auth middleware (src/unnamed/part_002), modelled abstractly: a signature
  binds the signing key and the exact payload, and verification checks the
  key and then expiry, in that order, as jsonwebtoken does;
- authMiddleware from src/unnamed/part_002, instrumented with a Bool that
  records whether jwt.verify was invoked;
- the tenant-scoped route handlers cited by the claims, each rendered as a
  function from the outcomes of its statements (bind outcome, query outcome)
  to an event trace, the connection state at release time, the HTTP response,
  and whether an exception escaped the handler.
-/

/-- Token payload as signed at login (src/unnamed/part_004, jwt.sign with
claims id and email): the identifying fields plus the issued-at and expiry
timestamps the library adds. -/
structure Payload where
  id : String
  email : String
  iat : Nat
  exp : Nat
deriving DecidableEq

/-- Abstract model of the HMAC signature on a token: it binds the signing
key and the exact payload that was signed. -/
structure Sig where
  key : String
  signedPayload : Payload
deriving DecidableEq

/-- Wire-level token as seen by jwt.verify: either a string that does not
parse as a JWT at all, or a payload together with its signature. -/
inductive Jwt
  | malformed (raw : String)
  | signed (payload : Payload) (sig : Sig)
deriving DecidableEq

/-- Internal reasons a token can fail verification (spec section 4.2). -/
inductive VerifyReason
  | malformedTok
  | signatureMismatch
  | expired
deriving DecidableEq

/-- Error messages produced by the jsonwebtoken library for each failure
reason; authMiddleware concatenates these into its 401 body. -/
def errMessage : VerifyReason → String
  | .malformedTok => "jwt malformed"
  | .signatureMismatch => "invalid signature"
  | .expired => "jwt expired"

/-- Model of jwt.sign as called in the login route (src/unnamed/part_004):
payload carries id and email, iat is the current time, exp is now + ttl,
and the signature binds the secret to that payload. -/
def jwtSign (secret id email : String) (now ttl : Nat) : Jwt :=
  .signed ⟨id, email, now, now + ttl⟩ ⟨secret, ⟨id, email, now, now + ttl⟩⟩

/-- Model of jwt.verify: a malformed token fails as malformed; otherwise the
signature is checked against the secret and the payload, and then expiry is
enforced (a token is expired at or after its exp timestamp). -/
def jwtVerify (secret : String) (now : Nat) : Jwt → Except VerifyReason Payload
  | .malformed _ => .error .malformedTok
  | .signed p s =>
    if s.key = secret ∧ s.signedPayload = p then
      if p.exp ≤ now then .error .expired else .ok p
    else .error .signatureMismatch

/-- Model of JavaScript String.prototype.split with separator " ": split at
every single space character, keeping empty fragments, so the split of the
empty list is a single empty fragment. -/
def splitSpaces : List Char → List (List Char)
  | [] => [[]]
  | c :: cs =>
    if c = ' ' then [] :: splitSpaces cs
    else
      match splitSpaces cs with
      | [] => [[c]]
      | w :: ws => (c :: w) :: ws

/-- Parts of the authorization header, as authHeader.split(" ") computes
them in src/unnamed/part_002. -/
def headerParts (h : String) : List String :=
  (splitSpaces h.toList).map (fun cs => String.mk cs)

/-- Outcome of the middleware: either a rejection with a status code and the
error string placed in the JSON body, or acceptance with the verified
payload attached to the request as req.user. -/
inductive AuthResult
  | reject (status : Nat) (errBody : String)
  | accept (principal : Payload)
deriving DecidableEq

/-- authMiddleware from src/unnamed/part_002. The second component of the
result records whether jwt.verify was invoked. In JavaScript a missing or
empty header string is falsy, so both take the missing-header branch. The
decode argument maps the raw token substring (parts[1]) to the wire token
the verifier sees. -/
def authMiddleware (secret : String) (now : Nat) (decode : String → Jwt)
    (authHeader : Option String) : AuthResult × Bool :=
  match authHeader with
  | none => (.reject 401 "Missing Authorization header", false)
  | some h =>
    if h = "" then (.reject 401 "Missing Authorization header", false)
    else
      match headerParts h with
      | [scheme, tok] =>
        if scheme = "Bearer" then
          match jwtVerify secret now (decode tok) with
          | .ok payload => (.accept payload, true)
          | .error r => (.reject 401 ("Invalid token: " ++ errMessage r), true)
        else (.reject 401 "Invalid Authorization header format", false)
      | _ => (.reject 401 "Invalid Authorization header format", false)

/-- Database row, as a list of column-name and value pairs. -/
abbrev Row := List (String × String)

/-- Pooled connection: the only session state the claims are about is the
app.current_user_id configuration set by the binding statement. -/
structure Conn where
  binding : Option String
deriving DecidableEq

/-- Row of the users table, with created_at as a numeric timestamp. -/
structure UserRow where
  id : String
  email : String
  full_name : String
  password_hash : String
  created_at : Nat
deriving DecidableEq

/-- Events of one handler execution, in program order. -/
inductive Ev
  | checkout
  | bindStmt (ok : Bool)
  | workQuery (ok : Bool)
  | respond (status : Nat)
  | release
  | raiseErr
deriving DecidableEq

/-- Response bodies the modelled handlers send. rowJson models
res.json(rows[0]): when no row matched, rows[0] is undefined and Express
sends an empty body, rendered here as none. -/
inductive Body
  | errMsg (msg : String)
  | rowsJson (rows : List Row)
  | rowJson (row : Option Row)
  | userRows (rows : List UserRow)
deriving DecidableEq

/-- HTTP response: status code and body. -/
structure Response where
  status : Nat
  body : Body
deriving DecidableEq

/-- Result of running one tenant-scoped handler: the connection state at the
moment it is released, the response sent (none if the handler threw before
responding), whether an exception escaped the handler, and the event trace. -/
structure ExecResult where
  conn : Conn
  response : Option Response
  raised : Bool
  trace : List Ev
deriving DecidableEq

/-- GET /profile handler from src/unnamed/part_001: checkout, then inside
try a session-scoped SET of app.current_user_id followed by the SELECT; any
error lands in catch which sends a fixed 500 body; finally releases. The
SET is awaited, so a bind failure skips the query. Release never clears the
binding. -/
def profileGet (uid : String) (conn : Conn) (bindRes : Except String Unit)
    (qres : Except String (List Row)) : ExecResult :=
  match bindRes with
  | .error _ =>
      { conn := conn,
        response := some ⟨500, .errMsg "Failed to fetch profile"⟩,
        raised := false,
        trace := [.checkout, .bindStmt false, .respond 500, .release] }
  | .ok _ =>
      match qres with
      | .error _ =>
          { conn := { binding := some uid },
            response := some ⟨500, .errMsg "Failed to fetch profile"⟩,
            raised := false,
            trace := [.checkout, .bindStmt true, .workQuery false, .respond 500, .release] }
      | .ok rows =>
          { conn := { binding := some uid },
            response := some ⟨200, .rowJson rows.head?⟩,
            raised := false,
            trace := [.checkout, .bindStmt true, .workQuery true, .respond 200, .release] }

/-- GET /family handler from src/unnamed/part_003: checkout, then try with
the session-scoped SET and the SELECT, and only a finally block — no catch —
so any error escapes the handler after release runs. -/
def familyGet (uid : String) (conn : Conn) (bindRes : Except String Unit)
    (qres : Except String (List Row)) : ExecResult :=
  match bindRes with
  | .error _ =>
      { conn := conn,
        response := none,
        raised := true,
        trace := [.checkout, .bindStmt false, .release, .raiseErr] }
  | .ok _ =>
      match qres with
      | .error _ =>
          { conn := { binding := some uid },
            response := none,
            raised := true,
            trace := [.checkout, .bindStmt true, .workQuery false, .release, .raiseErr] }
      | .ok rows =>
          { conn := { binding := some uid },
            response := some ⟨200, .rowsJson rows⟩,
            raised := false,
            trace := [.checkout, .bindStmt true, .workQuery true, .respond 200, .release] }

/-- POST /family handler from src/unnamed/part_003: checkout, try with the
session-scoped SET and the INSERT, catch sends status 400 with the raw error
message of the thrown error as the body, finally releases. -/
def familyPost (uid : String) (conn : Conn) (bindRes : Except String Unit)
    (qres : Except String (List Row)) : ExecResult :=
  match bindRes with
  | .error m =>
      { conn := conn,
        response := some ⟨400, .errMsg m⟩,
        raised := false,
        trace := [.checkout, .bindStmt false, .respond 400, .release] }
  | .ok _ =>
      match qres with
      | .error m =>
          { conn := { binding := some uid },
            response := some ⟨400, .errMsg m⟩,
            raised := false,
            trace := [.checkout, .bindStmt true, .workQuery false, .respond 400, .release] }
      | .ok rows =>
          { conn := { binding := some uid },
            response := some ⟨201, .rowJson rows.head?⟩,
            raised := false,
            trace := [.checkout, .bindStmt true, .workQuery true, .respond 201, .release] }

/-- POST /reminders handler from src/src/routes/reminders.routes.js:
checkout, try with the session-scoped SET and the INSERT returning the new
row, and only a finally — no catch — so errors escape after release. -/
def remindersPost (uid : String) (conn : Conn) (bindRes : Except String Unit)
    (qres : Except String (List Row)) : ExecResult :=
  match bindRes with
  | .error _ =>
      { conn := conn,
        response := none,
        raised := true,
        trace := [.checkout, .bindStmt false, .release, .raiseErr] }
  | .ok _ =>
      match qres with
      | .error _ =>
          { conn := { binding := some uid },
            response := none,
            raised := true,
            trace := [.checkout, .bindStmt true, .workQuery false, .release, .raiseErr] }
      | .ok rows =>
          { conn := { binding := some uid },
            response := some ⟨201, .rowJson rows.head?⟩,
            raised := false,
            trace := [.checkout, .bindStmt true, .workQuery true, .respond 201, .release] }

/-- PATCH /reminders/:id/complete handler from
src/src/routes/reminders.routes.js: checkout, try with the session-scoped
SET and the UPDATE ... RETURNING *, res.json(rows[0]), finally release; no
catch and no row-count check. -/
def remindersPatchComplete (uid : String) (conn : Conn)
    (bindRes : Except String Unit) (qres : Except String (List Row)) : ExecResult :=
  match bindRes with
  | .error _ =>
      { conn := conn,
        response := none,
        raised := true,
        trace := [.checkout, .bindStmt false, .release, .raiseErr] }
  | .ok _ =>
      match qres with
      | .error _ =>
          { conn := { binding := some uid },
            response := none,
            raised := true,
            trace := [.checkout, .bindStmt true, .workQuery false, .release, .raiseErr] }
      | .ok rows =>
          { conn := { binding := some uid },
            response := some ⟨200, .rowJson rows.head?⟩,
            raised := false,
            trace := [.checkout, .bindStmt true, .workQuery true, .respond 200, .release] }

/-- PATCH /notifications/:id/read handler from
src/src/routes/notifications.routes.js: same shape as the reminders
complete handler — session-scoped SET, UPDATE ... RETURNING *,
res.json(rows[0]), finally release, no catch, no row-count check. -/
def notificationsPatchRead (uid : String) (conn : Conn)
    (bindRes : Except String Unit) (qres : Except String (List Row)) : ExecResult :=
  match bindRes with
  | .error _ =>
      { conn := conn,
        response := none,
        raised := true,
        trace := [.checkout, .bindStmt false, .release, .raiseErr] }
  | .ok _ =>
      match qres with
      | .error _ =>
          { conn := { binding := some uid },
            response := none,
            raised := true,
            trace := [.checkout, .bindStmt true, .workQuery false, .release, .raiseErr] }
      | .ok rows =>
          { conn := { binding := some uid },
            response := some ⟨200, .rowJson rows.head?⟩,
            raised := false,
            trace := [.checkout, .bindStmt true, .workQuery true, .respond 200, .release] }

/-- Result of a handler that queries the shared pool directly, with no
connection checkout of its own. -/
structure PoolResult where
  response : Option Response
  raised : Bool
  trace : List Ev
deriving DecidableEq

/-- Comparison used to model ORDER BY created_at DESC. -/
def byCreatedAtDesc (a b : UserRow) : Bool :=
  decide (b.created_at ≤ a.created_at)

/-- GET /users handler from src/src/routes/users.routes.js: runs
SELECT * FROM public.users ORDER BY created_at DESC through pool.query with
no checkout and no binding statement; req.user is attached by the
middleware but never consulted. The catch maps a query failure to a generic
500. -/
def usersGet (db : List UserRow) (_principal : Payload) (qFails : Bool) : PoolResult :=
  if qFails then
    { response := some ⟨500, .errMsg "Internal server error"⟩,
      raised := false,
      trace := [.workQuery false, .respond 500] }
  else
    { response := some ⟨200, .userRows (db.mergeSort byCreatedAtDesc)⟩,
      raised := false,
      trace := [.workQuery true, .respond 200] }

/-- Row of the login query in src/unnamed/part_004: users joined with
profiles on user id. -/
structure UserRec where
  id : String
  email : String
  full_name : String
  password_hash : String
  plan_type : String
deriving DecidableEq

/-- User object the login route places in its 200 body: exactly the four
fields id, email, full_name, plan_type, as key-value pairs. -/
def publicUser (u : UserRec) : List (String × String) :=
  [("id", u.id), ("email", u.email), ("full_name", u.full_name), ("plan_type", u.plan_type)]

/-- Response of the login route: a 200 with token and user object, or an
error status with a message body and no token. -/
inductive LoginResp
  | okResp (token : Jwt) (user : List (String × String))
  | errResp (status : Nat) (errBody : String)
deriving DecidableEq

/-- POST /login handler from src/unnamed/part_004: select the user row by
email (modelled as a filter over the joined table), 400 on no row, compare
the password against the stored hash with bcrypt.compare (an abstract
comparison function here), 400 on mismatch, otherwise sign a token and
return it with the four public user fields; the catch maps query failures
to a generic 500. -/
def login (compare : String → String → Bool) (secret : String) (now ttl : Nat)
    (db : List UserRec) (qFails : Bool) (email password : String) : LoginResp :=
  if qFails then .errResp 500 "Internal server error"
  else
    match db.filter (fun r => r.email == email) with
    | [] => .errResp 400 "Invalid email or password"
    | user :: _ =>
      if compare password user.password_hash then
        .okResp (jwtSign secret user.id user.email now ttl) (publicUser user)
      else
        .errResp 400 "Invalid email or password"

/-- Number of events in a trace satisfying p. -/
def countEv (p : Ev → Bool) (t : List Ev) : Nat :=
  (t.filter p).length

/-- Release events. -/
def isRelease : Ev → Bool
  | .release => true
  | _ => false

/-- Work-query events (any query after the binding statement). -/
def isWorkQuery : Ev → Bool
  | .workQuery _ => true
  | _ => false

/-- Binding-statement events. -/
def isBindStmt : Ev → Bool
  | .bindStmt _ => true
  | _ => false

/-- True when every exception that escapes the handler is raised only after
a release event has already happened; seen records whether a release has
occurred so far. -/
def raisesAfterRelease (seen : Bool) : List Ev → Bool
  | [] => true
  | .release :: t => raisesAfterRelease true t
  | .raiseErr :: t => seen && raisesAfterRelease seen t
  | .checkout :: t => raisesAfterRelease seen t
  | .bindStmt _ :: t => raisesAfterRelease seen t
  | .workQuery _ :: t => raisesAfterRelease seen t
  | .respond _ :: t => raisesAfterRelease seen t

/-- Claim C1 counterexample: in POST /reminders the binding is NOT destroyed
at the end of the unit of work. With principal id 7, a successful bind and a
successful insert, the handler releases the connection exactly once, yet the
connection state at release still carries binding 7 — the connection
re-enters the pool with residual principal state, contradicting the claim. -/
theorem c1_residual_binding_counterexample :
    (remindersPost "7" ⟨none⟩ (Except.ok ()) (Except.ok [])).conn.binding = some "7" ∧
    countEv isRelease (remindersPost "7" ⟨none⟩ (Except.ok ()) (Except.ok [])).trace = 1 ∧
    (remindersPost "7" ⟨none⟩ (Except.ok ()) (Except.ok [])).conn.binding ≠ none := by
  decide

/-- Claim C1 amended: the cited handlers bind with a session-scoped SET and
release without clearing it, so after every successful bind the connection
is returned to the pool still carrying the caller's principal id as residual
session state; the stale binding persists until a later unit of work
overwrites it. -/
theorem c1_amended_session_binding_persists (uid : String) (conn : Conn)
    (qres : Except String (List Row)) :
    (remindersPost uid conn (Except.ok ()) qres).conn.binding = some uid ∧
    countEv isRelease (remindersPost uid conn (Except.ok ()) qres).trace = 1 ∧
    (familyGet uid conn (Except.ok ()) qres).conn.binding = some uid ∧
    countEv isRelease (familyGet uid conn (Except.ok ()) qres).trace = 1 := by
  cases qres <;> exact ⟨rfl, rfl, rfl, rfl⟩

/-- Claim C2: the protected GET /users handler issues its query directly
through the shared pool with no binding statement, and on query success it
responds 200 with the users table sorted by created_at descending — a
permutation of every row of the table — identically for any two
authenticated principals. -/
theorem c2_users_query_unscoped (db : List UserRow) (p q : Payload) :
    usersGet db p false = usersGet db q false ∧
    (usersGet db p false).response
      = some ⟨200, .userRows (db.mergeSort byCreatedAtDesc)⟩ ∧
    countEv isBindStmt (usersGet db p false).trace = 0 ∧
    (db.mergeSort byCreatedAtDesc).Perm db ∧
    List.Pairwise (fun a b : UserRow => b.created_at ≤ a.created_at)
      (db.mergeSort byCreatedAtDesc) := by
  refine ⟨rfl, rfl, rfl, List.mergeSort_perm db byCreatedAtDesc, ?_⟩
  have htrans : ∀ a b c : UserRow, byCreatedAtDesc a b = true →
      byCreatedAtDesc b c = true → byCreatedAtDesc a c = true := by
    intro a b c hab hbc
    simp only [byCreatedAtDesc, decide_eq_true_eq] at hab hbc ⊢
    omega
  have htotal : ∀ a b : UserRow, (byCreatedAtDesc a b || byCreatedAtDesc b a) = true := by
    intro a b
    simp only [byCreatedAtDesc, Bool.or_eq_true, decide_eq_true_eq]
    omega
  have hs := List.sorted_mergeSort htrans htotal db
  exact hs.imp (fun hx => by
    simpa only [byCreatedAtDesc, decide_eq_true_eq] using hx)

/-- Claim C3 counterexample: two tokens that fail verification for different
reasons receive different responses. With secret key secret at time 10, an
expired but correctly signed token yields body Invalid token: jwt expired,
while a token signed under the wrong key yields body Invalid token: invalid
signature — the two rejections are distinguishable. -/
theorem c3_distinct_bodies_counterexample :
    (authMiddleware "secret" 10
        (fun _ => Jwt.signed ⟨"1", "a@x.com", 0, 5⟩ ⟨"secret", ⟨"1", "a@x.com", 0, 5⟩⟩)
        (some "Bearer t")).fst
      = .reject 401 "Invalid token: jwt expired" ∧
    (authMiddleware "secret" 10
        (fun _ => Jwt.signed ⟨"1", "a@x.com", 0, 99⟩ ⟨"wrong", ⟨"1", "a@x.com", 0, 99⟩⟩)
        (some "Bearer t")).fst
      = .reject 401 "Invalid token: invalid signature" ∧
    (authMiddleware "secret" 10
        (fun _ => Jwt.signed ⟨"1", "a@x.com", 0, 5⟩ ⟨"secret", ⟨"1", "a@x.com", 0, 5⟩⟩)
        (some "Bearer t")).fst
      ≠ (authMiddleware "secret" 10
        (fun _ => Jwt.signed ⟨"1", "a@x.com", 0, 99⟩ ⟨"wrong", ⟨"1", "a@x.com", 0, 99⟩⟩)
        (some "Bearer t")).fst := by
  decide

/-- Claim C3 amended: every token that fails verification gets the same
status 401, but the response body embeds the verification error message
(Invalid token: followed by the reason-specific library message), so the
reason a token failed IS distinguishable from the response body alone. -/
theorem c3_amended_status_uniform_body_leaks (secret : String) (now : Nat)
    (decode : String → Jwt) (h tok : String) (r : VerifyReason)
    (hsplit : headerParts h = ["Bearer", tok])
    (hver : jwtVerify secret now (decode tok) = .error r) :
    authMiddleware secret now decode (some h)
      = (.reject 401 ("Invalid token: " ++ errMessage r), true) := by
  have hne : h ≠ "" := by
    intro he
    subst he
    rw [show headerParts "" = [""] from rfl] at hsplit
    injection hsplit with h1 h2
    exact absurd h1 (by decide)
  simp only [authMiddleware]
  rw [if_neg hne, hsplit]
  simp [hver]

/-- Claim C3 amended witness at concrete inputs: an expired token behind a
well-formed Bearer header produces the 401 with the expiry message. -/
theorem c3_amended_witness :
    authMiddleware "secret" 10
        (fun _ => Jwt.signed ⟨"1", "a@x.com", 0, 5⟩ ⟨"secret", ⟨"1", "a@x.com", 0, 5⟩⟩)
        (some "Bearer t")
      = (.reject 401 ("Invalid token: " ++ errMessage .expired), true) :=
  c3_amended_status_uniform_body_leaks "secret" 10
    (fun _ => Jwt.signed ⟨"1", "a@x.com", 0, 5⟩ ⟨"secret", ⟨"1", "a@x.com", 0, 5⟩⟩)
    "Bearer t" "t" .expired (by decide) rfl

/-- Claim C4 counterexample: an empty token is NOT rejected before the
signature check. The header Bearer followed by a space splits into exactly
two parts with the correct scheme, so the middleware passes the empty token
to jwt.verify — the invoked flag is true — and the rejection comes from the
verifier, not from the format check. -/
theorem c4_empty_token_counterexample :
    (authMiddleware "s" 0 (fun raw => Jwt.malformed raw) (some "Bearer ")).snd = true ∧
    (authMiddleware "s" 0 (fun raw => Jwt.malformed raw) (some "Bearer ")).fst
      = .reject 401 "Invalid token: jwt malformed" := by
  decide

/-- Claim C4 amended: an absent header is rejected as the distinct
missing-credential case without invoking the verifier; a header whose split
does not have exactly two parts, or whose first part differs from the
case-sensitive keyword Bearer, is rejected with the format message without
invoking the verifier; but a header with the right scheme and an empty token
passes the format check and reaches the verifier. -/
theorem c4_amended_malformed_header_rejections (secret : String) (now : Nat)
    (decode : String → Jwt) :
    authMiddleware secret now decode none
      = (.reject 401 "Missing Authorization header", false) ∧
    (∀ h : String, h ≠ "" → (headerParts h).length ≠ 2 →
      authMiddleware secret now decode (some h)
        = (.reject 401 "Invalid Authorization header format", false)) ∧
    (∀ h s t : String, headerParts h = [s, t] → s ≠ "Bearer" → h ≠ "" →
      authMiddleware secret now decode (some h)
        = (.reject 401 "Invalid Authorization header format", false)) ∧
    (authMiddleware secret now decode (some "Bearer ")).snd = true := by
  refine ⟨rfl, ?_, ?_, ?_⟩
  · intro h hne hlen
    simp only [authMiddleware]
    rw [if_neg hne]
    rcases hsp : headerParts h with _ | ⟨a, _ | ⟨b, _ | ⟨c, rest⟩⟩⟩
    · rfl
    · rfl
    · exact absurd (by rw [hsp]; rfl : (headerParts h).length = 2) hlen
    · rfl
  · intro h s t hsp hs hne
    simp only [authMiddleware]
    rw [if_neg hne, hsp]
    simp [hs]
  · simp only [authMiddleware]
    rw [if_neg (show ("Bearer " : String) ≠ "" by decide),
      show headerParts "Bearer " = ["Bearer", ""] from rfl]
    cases hv : jwtVerify secret now (decode "") <;> simp [hv]

/-- Claim C4 amended witness at concrete inputs: no header, a three-part
header, a lowercase scheme, and the empty-token header. -/
theorem c4_amended_witness :
    authMiddleware "s" 0 (fun raw => Jwt.malformed raw) none
      = (.reject 401 "Missing Authorization header", false) ∧
    authMiddleware "s" 0 (fun raw => Jwt.malformed raw) (some "x y z")
      = (.reject 401 "Invalid Authorization header format", false) ∧
    authMiddleware "s" 0 (fun raw => Jwt.malformed raw) (some "bearer t")
      = (.reject 401 "Invalid Authorization header format", false) ∧
    (authMiddleware "s" 0 (fun raw => Jwt.malformed raw) (some "Bearer ")).snd = true :=
  ⟨(c4_amended_malformed_header_rejections "s" 0 (fun raw => Jwt.malformed raw)).1,
   (c4_amended_malformed_header_rejections "s" 0 (fun raw => Jwt.malformed raw)).2.1
     "x y z" (by decide) (by decide),
   (c4_amended_malformed_header_rejections "s" 0 (fun raw => Jwt.malformed raw)).2.2.1
     "bearer t" "bearer" "t" (by decide) (by decide) (by decide),
   (c4_amended_malformed_header_rejections "s" 0 (fun raw => Jwt.malformed raw)).2.2.2⟩

/-- Claim C5: in the cited tenant-scoped handlers — POST /reminders and GET
/profile — every execution path, including failing bind and failing query,
releases the connection exactly once, and any exception that escapes the
handler is raised only after the release has already happened. -/
theorem c5_release_exactly_once (uid : String) (conn : Conn)
    (bindRes : Except String Unit) (qres : Except String (List Row)) :
    countEv isRelease (remindersPost uid conn bindRes qres).trace = 1 ∧
    raisesAfterRelease false (remindersPost uid conn bindRes qres).trace = true ∧
    countEv isRelease (profileGet uid conn bindRes qres).trace = 1 ∧
    raisesAfterRelease false (profileGet uid conn bindRes qres).trace = true := by
  cases bindRes <;> cases qres <;> exact ⟨rfl, rfl, rfl, rfl⟩

/-- Claim C6: in the cited handlers a failed binding statement is fatal for
the request: the bind error is awaited inside try, so no work query runs on
the connection afterwards, and the handler does not proceed — GET /profile
answers with its 500 error body, and GET /family (which has no catch)
raises, sending no response at all. -/
theorem c6_bind_failure_fatal (uid : String) (conn : Conn) (m : String)
    (qres : Except String (List Row)) :
    countEv isWorkQuery (profileGet uid conn (Except.error m) qres).trace = 0 ∧
    (profileGet uid conn (Except.error m) qres).response
      = some ⟨500, .errMsg "Failed to fetch profile"⟩ ∧
    countEv isWorkQuery (familyGet uid conn (Except.error m) qres).trace = 0 ∧
    (familyGet uid conn (Except.error m) qres).raised = true ∧
    (familyGet uid conn (Except.error m) qres).response = none := by
  exact ⟨rfl, rfl, rfl, rfl, rfl⟩

/-- Claim C7: when the login query finds a user for the supplied email and
the stored hash matches the supplied password, the route returns a token
together with a user object whose keys are only id, email, full_name and
plan_type — no password or password_hash field; when the comparison fails,
it returns status 400 with the invalid-credentials message and no token. -/
theorem c7_login_credentials (compare : String → String → Bool) (secret : String)
    (now ttl : Nat) (db : List UserRec) (email pw pw2 : String)
    (u : UserRec) (us : List UserRec)
    (hrows : db.filter (fun r => r.email == email) = u :: us)
    (hok : compare pw u.password_hash = true)
    (hbad : compare pw2 u.password_hash = false) :
    login compare secret now ttl db false email pw
      = .okResp (jwtSign secret u.id u.email now ttl) (publicUser u) ∧
    (∀ kv ∈ publicUser u, kv.1 ≠ "password" ∧ kv.1 ≠ "password_hash") ∧
    login compare secret now ttl db false email pw2
      = .errResp 400 "Invalid email or password" := by
  refine ⟨?_, ?_, ?_⟩
  · simp only [login]
    rw [hrows]
    simp [hok]
  · intro kv hkv
    simp only [publicUser, List.mem_cons, List.not_mem_nil, or_false] at hkv
    rcases hkv with h | h | h | h <;> subst h <;> exact ⟨by simp, by simp⟩
  · simp only [login]
    rw [hrows]
    simp [hbad]

/-- Claim C7 witness at the concrete scenario of the spec: email a@x.com,
stored hash secret, correct password secret, wrong password wrong. -/
theorem c7_login_credentials_witness :
    login (fun a b => a == b) "s" 0 86400
        [⟨"1", "a@x.com", "A", "secret", "free"⟩] false "a@x.com" "secret"
      = .okResp (jwtSign "s" "1" "a@x.com" 0 86400)
          (publicUser ⟨"1", "a@x.com", "A", "secret", "free"⟩) ∧
    (∀ kv ∈ publicUser (⟨"1", "a@x.com", "A", "secret", "free"⟩ : UserRec),
      kv.1 ≠ "password" ∧ kv.1 ≠ "password_hash") ∧
    login (fun a b => a == b) "s" 0 86400
        [⟨"1", "a@x.com", "A", "secret", "free"⟩] false "a@x.com" "wrong"
      = .errResp 400 "Invalid email or password" :=
  c7_login_credentials (fun a b => a == b) "s" 0 86400
    [⟨"1", "a@x.com", "A", "secret", "free"⟩] "a@x.com" "secret" "wrong"
    ⟨"1", "a@x.com", "A", "secret", "free"⟩ []
    (by decide) (by decide) (by decide)

/-- Claim C8: verifying a token immediately after issuance, at any time
strictly before expiry, succeeds and recovers exactly the id and email that
were signed, along with the issuance and expiry timestamps. -/
theorem c8_issue_verify_round_trip (secret id email : String) (now ttl t : Nat)
    (h : t < now + ttl) :
    jwtVerify secret t (jwtSign secret id email now ttl)
      = .ok ⟨id, email, now, now + ttl⟩ := by
  simp only [jwtSign, jwtVerify]
  split_ifs with h1 h2
  · exact absurd h2 (by omega)
  · rfl
  · exact absurd (by simp) h1

/-- Claim C8 witness: a token signed at time 0 with ttl 10 verifies at time
5 and recovers the signed id and email. -/
theorem c8_issue_verify_round_trip_witness :
    jwtVerify "s" 5 (jwtSign "s" "1" "a@x.com" 0 10) = .ok ⟨"1", "a@x.com", 0, 10⟩ :=
  c8_issue_verify_round_trip "s" "1" "a@x.com" 0 10 5 (by decide)

/-- Claim C9 counterexample: a query failure in POST /family is not mapped
to a generic server error: with a duplicate-key error the handler responds
status 400 — a client-error status, not a server-error one — and the body is
the raw database error text itself. -/
theorem c9_raw_error_counterexample :
    (familyPost "7" ⟨none⟩ (Except.ok ())
        (Except.error "duplicate key value violates unique constraint")).response
      = some ⟨400, .errMsg "duplicate key value violates unique constraint"⟩ ∧
    ¬ 500 ≤ (400 : Nat) := by
  decide

/-- Claim C9 amended: the handlers are inconsistent. GET /profile maps every
query failure to a fixed generic 500 body that is independent of the error
text, while POST /family responds 400 and places the raw error message in
the body, leaking internal detail to the caller. -/
theorem c9_amended_error_mapping (uid : String) (conn : Conn) (m : String) :
    (profileGet uid conn (Except.ok ()) (Except.error m)).response
      = some ⟨500, .errMsg "Failed to fetch profile"⟩ ∧
    (familyPost uid conn (Except.ok ()) (Except.error m)).response
      = some ⟨400, .errMsg m⟩ := by
  exact ⟨rfl, rfl⟩

/-- Claim C10: when the UPDATE matches no row, both PATCH
/reminders/:id/complete and PATCH /notifications/:id/read respond with
status 200 and res.json of the undefined first row — an empty body — rather
than a 404. -/
theorem c10_missing_row_success (uid : String) (conn : Conn) :
    (remindersPatchComplete uid conn (Except.ok ()) (Except.ok [])).response
      = some ⟨200, .rowJson none⟩ ∧
    (notificationsPatchRead uid conn (Except.ok ()) (Except.ok [])).response
      = some ⟨200, .rowJson none⟩ := by
  exact ⟨rfl, rfl⟩
